import Mathlib

/-!
Verification development for the comfort-routing backend
(`app.py` Flask route `/route` plus `config.py`), shallowly embedded in Lean.

Numeric request values and SQL numerics are modelled as rationals (`ℚ`);
nullable SQL columns and optional JSON fields as `Option ℚ`; Python
exceptions as `Except PyError`; the external `pgr_dijkstra` solver as an
abstract function from its pre-evaluated edge-cost list to an edge-id list.
-/

namespace ComfortRouting

/-! ### config.py -/

/-- Embedding of the `DB_CONFIG` dictionary of `config.py` (lines 5-11).
Each value is obtained with `os.environ.get` applied to the literal string
that appears in the source: `'postgres'` (twice), the literal password
string, the literal Supabase host string, and `'5432'`. -/
def DB_CONFIG (env : String → Option String) : List (String × Option String) :=
  [("dbname", env "postgres"),
   ("user", env "postgres"),
   ("password", env "#?W?wj2h9TNQ?sP"),
   ("host", env "db.vhxvqmfpyqkcmfudvgdr.supabase.co"),
   ("port", env "5432")]

/-- The `required_vars` list of `config.py` (line 14). -/
def required_vars : List String := ["munich_city", "postgres", "admin", "localhost"]

/-- Python `dict.get(k)` on the association-list model of a dict whose
values are `Option String`: a missing key yields `None`. -/
def pyGet (d : List (String × Option String)) (k : String) : Option String :=
  match d.find? (fun p => p.1 == k) with
  | some p => p.2
  | none => none

/-- Python truthiness of an optional string: `None` and `""` are falsy. -/
def pyTruthy : Option String → Bool
  | none => false
  | some s => s ≠ ""

/-- The names warned about by the `config.py` check (lines 15-17): every
`var` in `required_vars` with `not DB_CONFIG.get(var)`. -/
def config_warnings (env : String → Option String) : List String :=
  required_vars.filter (fun v => ! pyTruthy (pyGet (DB_CONFIG env) v))

/-! ### Cost models (the SQL cost expressions of app.py) -/

/-- A row of the `munich_roads` table restricted to the columns the
`/route` handler reads: edge id, endpoints, length, geometry, and the
thirteen nullable comfort columns. -/
structure EdgeRow where
  gid : Int
  source : Int
  target : Int
  length : ℚ
  geom : String
  pedestrian_infrastructure_norm : Option ℚ
  pavement_norm : Option ℚ
  max_speed_norm : Option ℚ
  greenness_norm : Option ℚ
  buildings_norm : Option ℚ
  crossings_norm : Option ℚ
  facilities_norm : Option ℚ
  number_lanes_norm : Option ℚ
  water_norm : Option ℚ
  gradient_norm : Option ℚ
  benches : Option ℚ
  light : Option ℚ
  visuals : Option ℚ
deriving Repr, DecidableEq

/-- The `weights` dictionary built in `app.py` (lines 75-89): one
normalized weight per comfort factor. -/
structure Weights where
  sidewalks : ℚ
  surface : ℚ
  speed : ℚ
  greenery : ℚ
  buildings : ℚ
  crossings : ℚ
  facilities : ℚ
  lanes : ℚ
  water : ℚ
  benches : ℚ
  light : ℚ
  visuals : ℚ
  gradient : ℚ
deriving Repr, DecidableEq

/-- SQL `COALESCE(x, 0)` on a nullable numeric column. -/
def coalesce0 (o : Option ℚ) : ℚ := o.getD 0

/-- The comfort cost expression of the geometry query `sql`
(`app.py` lines 143-158), term for term in the order of the source. -/
def comfort_cost (alpha : ℚ) (w : Weights) (e : EdgeRow) : ℚ :=
  e.length * (1 + alpha * (
    w.gradient * (1 - coalesce0 e.gradient_norm) +
    w.sidewalks * (1 - coalesce0 e.pedestrian_infrastructure_norm) +
    w.surface * (1 - coalesce0 e.pavement_norm) +
    w.speed * (1 - coalesce0 e.max_speed_norm) +
    w.greenery * (1 - coalesce0 e.greenness_norm) +
    w.buildings * (1 - coalesce0 e.buildings_norm) +
    w.crossings * (1 - coalesce0 e.crossings_norm) +
    w.facilities * (1 - coalesce0 e.facilities_norm) +
    w.lanes * (1 - coalesce0 e.number_lanes_norm) +
    w.benches * (1 - coalesce0 e.benches) +
    w.light * (1 - coalesce0 e.light) +
    w.visuals * (1 - coalesce0 e.visuals) +
    w.water * (1 - coalesce0 e.water_norm)))

/-- The comfort cost expression textually duplicated inside `metric_sql`
(`app.py` lines 285-300), transcribed separately from that second SQL
string. -/
def comfort_cost_metric (alpha : ℚ) (w : Weights) (e : EdgeRow) : ℚ :=
  e.length * (1 + alpha * (
    w.gradient * (1 - coalesce0 e.gradient_norm) +
    w.sidewalks * (1 - coalesce0 e.pedestrian_infrastructure_norm) +
    w.surface * (1 - coalesce0 e.pavement_norm) +
    w.speed * (1 - coalesce0 e.max_speed_norm) +
    w.greenery * (1 - coalesce0 e.greenness_norm) +
    w.buildings * (1 - coalesce0 e.buildings_norm) +
    w.crossings * (1 - coalesce0 e.crossings_norm) +
    w.facilities * (1 - coalesce0 e.facilities_norm) +
    w.lanes * (1 - coalesce0 e.number_lanes_norm) +
    w.benches * (1 - coalesce0 e.benches) +
    w.light * (1 - coalesce0 e.light) +
    w.visuals * (1 - coalesce0 e.visuals) +
    w.water * (1 - coalesce0 e.water_norm)))

/-- The shortest-route cost expression (`length AS cost`,
`app.py` lines 167 and 309). -/
def distance_cost (e : EdgeRow) : ℚ := e.length

/-- The thirteen (weight, comfort attribute) pairs of an edge, one per
factor of the `weights` dictionary, pairing each weight with the database
column the SQL applies it to. -/
def factorTerms (w : Weights) (e : EdgeRow) : List (ℚ × Option ℚ) :=
  [(w.sidewalks, e.pedestrian_infrastructure_norm),
   (w.surface, e.pavement_norm),
   (w.speed, e.max_speed_norm),
   (w.greenery, e.greenness_norm),
   (w.buildings, e.buildings_norm),
   (w.crossings, e.crossings_norm),
   (w.facilities, e.facilities_norm),
   (w.lanes, e.number_lanes_norm),
   (w.water, e.water_norm),
   (w.benches, e.benches),
   (w.light, e.light),
   (w.visuals, e.visuals),
   (w.gradient, e.gradient_norm)]

/-! ### The /route request handler -/

/-- Python exceptions the embedded handler can raise. -/
inductive PyError where
  | keyError (k : String)
deriving Repr, DecidableEq

/-- The JSON body of a `/route` request, restricted to the keys `app.py`
reads. Coordinates are kept abstract as rational pairs; every key may be
absent. The key named `end` in the source is spelled `endp` because `end`
is reserved in Lean; `length` here is the balance-level code. -/
structure RequestData where
  start : Option (ℚ × ℚ)
  endp : Option (ℚ × ℚ)
  sidewalks : Option ℚ
  surface : Option ℚ
  speed : Option ℚ
  greenery : Option ℚ
  buildings : Option ℚ
  crossings : Option ℚ
  facilities : Option ℚ
  lanes : Option ℚ
  water : Option ℚ
  benches : Option ℚ
  lights : Option ℚ
  attractiveness : Option ℚ
  steepness : Option ℚ
  length : Option Int
deriving Repr, DecidableEq

/-- Python `data[k]`: raises `KeyError(k)` on an absent key. -/
def pyIndex {α : Type} (o : Option α) (k : String) : Except PyError α :=
  match o with
  | some v => .ok v
  | none => .error (.keyError k)

/-- The alpha lookup `{1: 0.5, 2: 5.0, 3: 10.0}.get(length_level, 5.0)`
of `app.py` line 95. -/
def alphaTable (n : Int) : ℚ :=
  if n = 1 then 1/2 else if n = 2 then 5 else if n = 3 then 10 else 5

/-- The normalized preferences: the `weights` dictionary and `alpha`. -/
structure Prefs where
  weights : Weights
  alpha : ℚ
deriving Repr, DecidableEq

/-- The preference-reading prefix of `generate_route` (`app.py` lines
69-95): subscripting (`data[...]`, which can raise `KeyError`) for
`start`, `end`, `sidewalks`, `surface` and `greenery`, `.get` with
default `5` for every other slider, division by 10, and the alpha lookup
with `data.get('length', 2)`. Keys are read in source order. -/
def parse_request (d : RequestData) : Except PyError Prefs := do
  let _start ← pyIndex d.start "start"
  let _endp ← pyIndex d.endp "end"
  let sidewalks ← pyIndex d.sidewalks "sidewalks"
  let surface ← pyIndex d.surface "surface"
  let speed := d.speed.getD 5
  let greenery ← pyIndex d.greenery "greenery"
  let w : Weights :=
    { sidewalks := sidewalks / 10
      surface := surface / 10
      speed := speed / 10
      greenery := greenery / 10
      buildings := (d.buildings.getD 5) / 10
      crossings := (d.crossings.getD 5) / 10
      facilities := (d.facilities.getD 5) / 10
      lanes := (d.lanes.getD 5) / 10
      water := (d.water.getD 5) / 10
      benches := (d.benches.getD 5) / 10
      light := (d.lights.getD 5) / 10
      visuals := (d.attractiveness.getD 5) / 10
      gradient := (d.steepness.getD 5) / 10 }
  return { weights := w, alpha := alphaTable (d.length.getD 2) }

/-- One row of the edge list handed to `pgr_dijkstra`: `(id, source,
target, cost)` with the cost pre-evaluated under one cost model. -/
structure SolverEdge where
  id : Int
  source : Int
  target : Int
  cost : ℚ
deriving Repr, DecidableEq

/-- One invocation of `pgr_dijkstra`: its edge list and endpoints. -/
structure SolverCall where
  edges : List SolverEdge
  source : Int
  target : Int
deriving Repr, DecidableEq

/-- The edge list of the comfort-route `pgr_dijkstra` call in the
geometry query `sql`. -/
def comfortEdgeList (alpha : ℚ) (w : Weights) (roads : List EdgeRow) :
    List SolverEdge :=
  roads.map (fun e => ⟨e.gid, e.source, e.target, comfort_cost alpha w e⟩)

/-- The edge list of the comfort-route `pgr_dijkstra` call in
`metric_sql` (duplicated cost expression). -/
def comfortEdgeListMetric (alpha : ℚ) (w : Weights) (roads : List EdgeRow) :
    List SolverEdge :=
  roads.map (fun e => ⟨e.gid, e.source, e.target, comfort_cost_metric alpha w e⟩)

/-- The edge list of both shortest-route `pgr_dijkstra` calls
(`length AS cost`). -/
def lengthEdgeList (roads : List EdgeRow) : List SolverEdge :=
  roads.map (fun e => ⟨e.gid, e.source, e.target, distance_cost e⟩)

/-- One GeoJSON feature of the response: the route tag stored into
`properties['route_type']` together with the road row whose geometry and
attribute columns the feature carries. -/
structure Feature where
  route_type : String
  row : EdgeRow
deriving Repr, DecidableEq

/-- The inner join `FROM munich_roads r JOIN <route> ON r.gid = edge` of
the geometry query: one feature per (table row, solver edge id) pair with
matching gid. Rows without a partner on either side produce nothing. -/
def joinRoute (roads : List EdgeRow) (edgeIds : List Int) (rt : String) :
    List Feature :=
  roads.flatMap (fun r =>
    edgeIds.filterMap (fun eid =>
      if r.gid = eid then some ⟨rt, r⟩ else none))

/-- SQL `SUM` over a non-nullable numeric column: `NULL` on zero rows. -/
def sqlSum (l : List ℚ) : Option ℚ :=
  if l.isEmpty then none else some l.sum

/-- SQL `AVG` over a nullable numeric column: the mean of the non-`NULL`
values, `NULL` when there is none. -/
def sqlAvg (l : List (Option ℚ)) : Option ℚ :=
  let vs := l.filterMap id
  if vs.isEmpty then none else some (vs.sum / vs.length)

/-- One row of the `metric_sql` aggregate result (after `type`). -/
structure RouteMetrics where
  total_length : Option ℚ
  pedestrian_infrastructure_norm : Option ℚ
  pavement_norm : Option ℚ
  max_speed_norm : Option ℚ
  greenness_norm : Option ℚ
  buildings_norm : Option ℚ
  crossings_norm : Option ℚ
  facilities_norm : Option ℚ
  number_lanes_norm : Option ℚ
  water_norm : Option ℚ
  benches : Option ℚ
  light : Option ℚ
  visuals : Option ℚ
  gradient_norm : Option ℚ
deriving Repr, DecidableEq

/-- The `SELECT ... SUM(length), AVG(...) FROM <variant>_data` aggregate
of `metric_sql`, applied to the rows of one variant. An aggregate query
without `GROUP BY` yields exactly one row even on empty input. -/
def computeMetrics (rows : List EdgeRow) : RouteMetrics :=
  { total_length := sqlSum (rows.map (fun r => r.length))
    pedestrian_infrastructure_norm :=
      sqlAvg (rows.map (fun r => r.pedestrian_infrastructure_norm))
    pavement_norm := sqlAvg (rows.map (fun r => r.pavement_norm))
    max_speed_norm := sqlAvg (rows.map (fun r => r.max_speed_norm))
    greenness_norm := sqlAvg (rows.map (fun r => r.greenness_norm))
    buildings_norm := sqlAvg (rows.map (fun r => r.buildings_norm))
    crossings_norm := sqlAvg (rows.map (fun r => r.crossings_norm))
    facilities_norm := sqlAvg (rows.map (fun r => r.facilities_norm))
    number_lanes_norm := sqlAvg (rows.map (fun r => r.number_lanes_norm))
    water_norm := sqlAvg (rows.map (fun r => r.water_norm))
    benches := sqlAvg (rows.map (fun r => r.benches))
    light := sqlAvg (rows.map (fun r => r.light))
    visuals := sqlAvg (rows.map (fun r => r.visuals))
    gradient_norm := sqlAvg (rows.map (fun r => r.gradient_norm)) }

/-- The metrics row with every aggregate `NULL`. -/
def emptyMetrics : RouteMetrics :=
  ⟨none, none, none, none, none, none, none,
   none, none, none, none, none, none, none⟩

/-- The JSON body returned by a successful `/route` request. -/
structure RouteResponse where
  comfort_features : List Feature
  shortest_features : List Feature
  comfort_metrics : RouteMetrics
  shortest_metrics : RouteMetrics
deriving Repr, DecidableEq

/-- The `/route` handler `generate_route` of `app.py`, after the external
nearest-node lookups (whose results are the `source_id`/`target_id`
arguments) and with `pgr_dijkstra` abstracted as `solver`. Returns the
handler outcome together with the trace of solver invocations, in order:
the geometry query `sql` evaluates its `comfort_route` and
`shortest_route` CTEs, then `metric_sql` evaluates its own copies of
both; `comfort_data`/`shortest_data` filter `munich_roads` by
`gid IN (SELECT edge FROM ...)`. A missing key raises before the solver
runs; any raise is answered with a JSON error and HTTP 500. -/
def generate_route (d : RequestData) (roads : List EdgeRow)
    (source_id target_id : Int) (solver : SolverCall → List Int) :
    Except PyError RouteResponse × List SolverCall :=
  match parse_request d with
  | .error e => (.error e, [])
  | .ok p =>
    let c1 : SolverCall := ⟨comfortEdgeList p.alpha p.weights roads, source_id, target_id⟩
    let s1 : SolverCall := ⟨lengthEdgeList roads, source_id, target_id⟩
    let comfort_features := joinRoute roads (solver c1) "comfort"
    let shortest_features := joinRoute roads (solver s1) "shortest"
    let c2 : SolverCall := ⟨comfortEdgeListMetric p.alpha p.weights roads, source_id, target_id⟩
    let s2 : SolverCall := ⟨lengthEdgeList roads, source_id, target_id⟩
    let comfort_data := roads.filter (fun r => (solver c2).contains r.gid)
    let shortest_data := roads.filter (fun r => (solver s2).contains r.gid)
    (.ok { comfort_features := comfort_features
           shortest_features := shortest_features
           comfort_metrics := computeMetrics comfort_data
           shortest_metrics := computeMetrics shortest_data },
     [c1, s1, c2, s2])

/-- HTTP status of the handler outcome: a raise inside the `try` block is
answered by the generic handler with 500, and a raise before the `try`
block (the `KeyError`s of lines 69-89) becomes Flask's default 500. -/
def http_status (r : Except PyError RouteResponse) : Nat :=
  match r with
  | .ok _ => 200
  | .error _ => 500

/-! ### Concrete fixtures used by witnesses and counterexamples -/

/-- A concrete road edge with a mix of present and `NULL` attributes. -/
def edgeA : EdgeRow :=
  { gid := 1, source := 10, target := 11, length := 10, geom := "segA"
    pedestrian_infrastructure_norm := some 1
    pavement_norm := some (1/2)
    max_speed_norm := none
    greenness_norm := some 0
    buildings_norm := some (3/10)
    crossings_norm := none
    facilities_norm := some 1
    number_lanes_norm := some (1/2)
    water_norm := some (7/10)
    gradient_norm := some (1/5)
    benches := none
    light := some (9/10)
    visuals := some (2/5) }

/-- A request body carrying every required key, a mix of present and
absent optional sliders, and balance level 3. -/
def dAll : RequestData :=
  { start := some (23/2, 48), endp := some (58/5, 241/5)
    sidewalks := some 10, surface := some 5, speed := some 3
    greenery := some 0, buildings := none, crossings := some 7
    facilities := none, lanes := some 2, water := none
    benches := some 10, lights := none, attractiveness := some 6
    steepness := some 4, length := some 3 }

/-- `dAll` with the required key `sidewalks` removed. -/
def d5cx : RequestData := { dAll with sidewalks := none }

/-- A solver stub returning the one-edge path `[1]`. -/
def solver0 : SolverCall → List Int := fun _ => [1]

/-- A solver stub returning an edge id (99) with no row in the table. -/
def solver2cx : SolverCall → List Int := fun _ => [1, 99]

/-- A weight vector with every factor at 1/2. -/
def wHalf : Weights :=
  ⟨1/2, 1/2, 1/2, 1/2, 1/2, 1/2, 1/2, 1/2, 1/2, 1/2, 1/2, 1/2, 1/2⟩

/-- The preferences the handler derives from `dAll`: every present slider
divided by 10, default 5 for the absent ones, alpha from level 3. -/
def pAll : Prefs :=
  { weights :=
      { sidewalks := 10/10, surface := 5/10, speed := 3/10, greenery := 0/10
        buildings := 5/10, crossings := 7/10, facilities := 5/10, lanes := 2/10
        water := 5/10, benches := 10/10, light := 5/10, visuals := 6/10
        gradient := 4/10 }
    alpha := alphaTable 3 }

/-! ### Helper lemmas -/

lemma comfort_cost_eq_sum (alpha : ℚ) (w : Weights) (e : EdgeRow) :
    comfort_cost alpha w e =
      e.length * (1 + alpha *
        ((factorTerms w e).map (fun p => p.1 * (1 - coalesce0 p.2))).sum) := by
  simp only [comfort_cost, factorTerms, List.map_cons, List.map_nil,
    List.sum_cons, List.sum_nil]
  ring

lemma term_nonneg {wt : ℚ} {o : Option ℚ} (hw : 0 ≤ wt)
    (ho : ∀ x ∈ o, 0 ≤ x ∧ x ≤ 1) : 0 ≤ wt * (1 - coalesce0 o) := by
  apply mul_nonneg hw
  cases o with
  | none => simp [coalesce0]
  | some x =>
      have := (ho x rfl).2
      simp only [coalesce0, Option.getD_some]
      linarith

lemma generate_route_ok {d : RequestData} {p : Prefs} (roads : List EdgeRow)
    (sid tid : Int) (solver : SolverCall → List Int)
    (h : parse_request d = .ok p) :
    generate_route d roads sid tid solver =
      (.ok { comfort_features :=
               joinRoute roads (solver ⟨comfortEdgeList p.alpha p.weights roads, sid, tid⟩) "comfort"
             shortest_features :=
               joinRoute roads (solver ⟨lengthEdgeList roads, sid, tid⟩) "shortest"
             comfort_metrics := computeMetrics (roads.filter (fun r =>
               (solver ⟨comfortEdgeListMetric p.alpha p.weights roads, sid, tid⟩).contains r.gid))
             shortest_metrics := computeMetrics (roads.filter (fun r =>
               (solver ⟨lengthEdgeList roads, sid, tid⟩).contains r.gid)) },
       [⟨comfortEdgeList p.alpha p.weights roads, sid, tid⟩,
        ⟨lengthEdgeList roads, sid, tid⟩,
        ⟨comfortEdgeListMetric p.alpha p.weights roads, sid, tid⟩,
        ⟨lengthEdgeList roads, sid, tid⟩]) := by
  simp [generate_route, h]

lemma generate_route_parse_error {d : RequestData} {e : PyError}
    (roads : List EdgeRow) (sid tid : Int) (solver : SolverCall → List Int)
    (h : parse_request d = .error e) :
    generate_route d roads sid tid solver = (.error e, []) := by
  simp [generate_route, h]

lemma joinRoute_nil_ids (roads : List EdgeRow) (rt : String) :
    joinRoute roads [] rt = [] := by
  induction roads with
  | nil => rfl
  | cons a l ih => simp [joinRoute]

lemma filter_contains_nil (roads : List EdgeRow) :
    roads.filter (fun r => (([] : List Int)).contains r.gid) = [] := by
  simp

lemma computeMetrics_nil : computeMetrics [] = emptyMetrics := rfl

lemma parse_request_ok_of_required {d : RequestData} {st en : ℚ × ℚ}
    {sw su gr : ℚ} (hst : d.start = some st) (hen : d.endp = some en)
    (hsw : d.sidewalks = some sw) (hsu : d.surface = some su)
    (hgr : d.greenery = some gr) :
    parse_request d = .ok
      { weights :=
          { sidewalks := sw / 10, surface := su / 10
            speed := (d.speed.getD 5) / 10, greenery := gr / 10
            buildings := (d.buildings.getD 5) / 10
            crossings := (d.crossings.getD 5) / 10
            facilities := (d.facilities.getD 5) / 10
            lanes := (d.lanes.getD 5) / 10
            water := (d.water.getD 5) / 10
            benches := (d.benches.getD 5) / 10
            light := (d.lights.getD 5) / 10
            visuals := (d.attractiveness.getD 5) / 10
            gradient := (d.steepness.getD 5) / 10 }
        alpha := alphaTable (d.length.getD 2) } := by
  simp only [parse_request, pyIndex, hst, hen, hsw, hsu, hgr]
  rfl

lemma parse_dAll : parse_request dAll = .ok pAll := rfl

lemma generate_route_empty_solver {d : RequestData} {p : Prefs}
    (roads : List EdgeRow) (sid tid : Int) (h : parse_request d = .ok p) :
    (generate_route d roads sid tid (fun _ => [])).1 =
      .ok ⟨[], [], emptyMetrics, emptyMetrics⟩ := by
  rw [generate_route_ok roads sid tid (fun _ => []) h]
  simp [joinRoute_nil_ids, filter_contains_nil, computeMetrics_nil]

/-! ### Claim theorems -/

/-- C1: for every road edge, the comfort cost model is
length * (1 + alpha * sum over all thirteen comfort factors of
weight * (1 - attribute)), where a NULL/absent comfort attribute is
coalesced to 0 (worst comfort) rather than skipped, and the distance cost
model is the edge's raw length, ignoring every comfort attribute. -/
theorem cost_model_formula (alpha : ℚ) (w : Weights) (e : EdgeRow) :
    (factorTerms w e).length = 13 ∧
    comfort_cost alpha w e =
      e.length * (1 + alpha *
        ((factorTerms w e).map (fun p => p.1 * (1 - coalesce0 p.2))).sum) ∧
    coalesce0 none = 0 ∧
    distance_cost e = e.length :=
  ⟨rfl, comfort_cost_eq_sum alpha w e, rfl, rfl⟩

/-- C7: for every edge with nonnegative length, comfort attributes in
[0,1], weights in [0,1] and alpha nonnegative, the comfort cost is at
least the distance cost whenever some comfort attribute is below 1 and
its weight is positive: discomfort only ever adds cost. -/
theorem comfort_cost_ge_distance (alpha : ℚ) (w : Weights) (e : EdgeRow)
    (hlen : 0 ≤ e.length) (halpha : 0 ≤ alpha)
    (hw : ∀ p ∈ factorTerms w e, 0 ≤ p.1 ∧ p.1 ≤ 1)
    (hattr : ∀ p ∈ factorTerms w e, ∀ x ∈ p.2, 0 ≤ x ∧ x ≤ 1)
    (_hsome : ∃ p ∈ factorTerms w e, coalesce0 p.2 < 1 ∧ 0 < p.1) :
    distance_cost e ≤ comfort_cost alpha w e := by
  have hS : 0 ≤ ((factorTerms w e).map (fun p => p.1 * (1 - coalesce0 p.2))).sum := by
    apply List.sum_nonneg
    intro x hx
    simp only [List.mem_map] at hx
    obtain ⟨p, hp, rfl⟩ := hx
    exact term_nonneg (hw p hp).1 (hattr p hp)
  rw [comfort_cost_eq_sum, distance_cost]
  nlinarith [mul_nonneg halpha hS]

/-- Witness for C7 at a concrete edge and weight vector. -/
theorem comfort_cost_ge_distance_witness :
    distance_cost edgeA ≤ comfort_cost 10 wHalf edgeA :=
  comfort_cost_ge_distance 10 wHalf edgeA
    (by norm_num [edgeA]) (by norm_num)
    (by intro p hp; fin_cases hp <;> norm_num [wHalf])
    (by intro p hp; fin_cases hp <;> intro x hx <;> simp_all [edgeA] <;>
        (try constructor) <;> linarith)
    ⟨(wHalf.greenery, edgeA.greenness_norm),
      by simp [factorTerms], by norm_num [wHalf, edgeA, coalesce0]⟩

/-- C9: the comfort cost expression of the geometry query and the
textually duplicated comfort cost expression of the metrics query denote
the same function of an edge: for the same weights and alpha they give
equal costs on every edge. -/
theorem metric_cost_matches_geometry_cost (alpha : ℚ) (w : Weights)
    (e : EdgeRow) : comfort_cost alpha w e = comfort_cost_metric alpha w e :=
  rfl

/-- C10: in every process environment, the `config.py` values are looked
up under the literal strings of the source used as environment-variable
names, the keys of `DB_CONFIG` are dbname/user/password/host/port, none
of the names checked by the required-variable loop is among those keys,
and so the check warns about all four names regardless of the
environment. -/
theorem config_check_always_warns (env : String → Option String) :
    DB_CONFIG env =
      [("dbname", env "postgres"),
       ("user", env "postgres"),
       ("password", env "#?W?wj2h9TNQ?sP"),
       ("host", env "db.vhxvqmfpyqkcmfudvgdr.supabase.co"),
       ("port", env "5432")] ∧
    (DB_CONFIG env).map Prod.fst = ["dbname", "user", "password", "host", "port"] ∧
    (∀ v ∈ required_vars, pyGet (DB_CONFIG env) v = none) ∧
    config_warnings env = ["munich_city", "postgres", "admin", "localhost"] := by
  refine ⟨rfl, rfl, ?_, rfl⟩
  intro v hv
  fin_cases hv <;> rfl

/-- C8: the normalizer produces each factor weight as the raw slider
value divided by 10 without rounding (raw 10 gives 1, raw 0 gives 0),
substitutes default 5 for each absent optional factor, and produces alpha
via the table mapping 1 to 0.5, 2 to 5.0 and 3 to 10.0; an absent balance
level uses level 2 and an unrecognized one falls back to 5.0. -/
theorem preference_normalization (d : RequestData) (st en : ℚ × ℚ)
    (sw su gr : ℚ) (hst : d.start = some st) (hen : d.endp = some en)
    (hsw : d.sidewalks = some sw) (hsu : d.surface = some su)
    (hgr : d.greenery = some gr) :
    parse_request d = .ok
      { weights :=
          { sidewalks := sw / 10, surface := su / 10
            speed := (d.speed.getD 5) / 10, greenery := gr / 10
            buildings := (d.buildings.getD 5) / 10
            crossings := (d.crossings.getD 5) / 10
            facilities := (d.facilities.getD 5) / 10
            lanes := (d.lanes.getD 5) / 10
            water := (d.water.getD 5) / 10
            benches := (d.benches.getD 5) / 10
            light := (d.lights.getD 5) / 10
            visuals := (d.attractiveness.getD 5) / 10
            gradient := (d.steepness.getD 5) / 10 }
        alpha := alphaTable (d.length.getD 2) } ∧
    alphaTable 1 = 1/2 ∧ alphaTable 2 = 5 ∧ alphaTable 3 = 10 ∧
    (Option.getD (none : Option Int) 2 = 2) ∧
    (∀ n : Int, n ≠ 1 → n ≠ 2 → n ≠ 3 → alphaTable n = 5) ∧
    (10 : ℚ) / 10 = 1 ∧ (0 : ℚ) / 10 = 0 := by
  refine ⟨parse_request_ok_of_required hst hen hsw hsu hgr,
    rfl, rfl, rfl, rfl, ?_, by norm_num, by norm_num⟩
  intro n h1 h2 h3
  simp [alphaTable, h1, h2, h3]

/-- Witness for C8 at the concrete request `dAll`. -/
theorem preference_normalization_witness :
    parse_request dAll = .ok
      { weights :=
          { sidewalks := (10 : ℚ) / 10, surface := (5 : ℚ) / 10
            speed := (dAll.speed.getD 5) / 10, greenery := (0 : ℚ) / 10
            buildings := (dAll.buildings.getD 5) / 10
            crossings := (dAll.crossings.getD 5) / 10
            facilities := (dAll.facilities.getD 5) / 10
            lanes := (dAll.lanes.getD 5) / 10
            water := (dAll.water.getD 5) / 10
            benches := (dAll.benches.getD 5) / 10
            light := (dAll.lights.getD 5) / 10
            visuals := (dAll.attractiveness.getD 5) / 10
            gradient := (dAll.steepness.getD 5) / 10 }
        alpha := alphaTable (dAll.length.getD 2) } ∧
    alphaTable 1 = 1/2 ∧ alphaTable 2 = 5 ∧ alphaTable 3 = 10 ∧
    (Option.getD (none : Option Int) 2 = 2) ∧
    (∀ n : Int, n ≠ 1 → n ≠ 2 → n ≠ 3 → alphaTable n = 5) ∧
    (10 : ℚ) / 10 = 1 ∧ (0 : ℚ) / 10 = 0 :=
  preference_normalization dAll (23/2, 48) (58/5, 241/5) 10 5 0
    rfl rfl rfl rfl rfl

/-- C5 counterexample: with the required key `sidewalks` absent, the
handler raises `KeyError` (there is no ValidationError) and the request
is answered with HTTP 500, which is a server error, not a client error. -/
theorem validation_error_counterexample :
    (generate_route d5cx [edgeA] 1 2 solver0).1 =
      .error (.keyError "sidewalks") ∧
    (generate_route d5cx [edgeA] 1 2 solver0).2 = [] ∧
    http_status (generate_route d5cx [edgeA] 1 2 solver0).1 = 500 ∧
    ¬ (400 ≤ http_status (generate_route d5cx [edgeA] 1 2 solver0).1 ∧
       http_status (generate_route d5cx [edgeA] 1 2 solver0).1 < 500) := by
  refine ⟨rfl, rfl, rfl, ?_⟩
  have h : http_status (generate_route d5cx [edgeA] 1 2 solver0).1 = 500 := rfl
  rw [h]
  omega

/-- C5 amended: a request missing a required factor (sidewalks, surface
or greenery) fails with `KeyError` on that key before any solver call and
is surfaced as a server error (HTTP 500), not as a ValidationError client
error; requests with all three required factors present always parse,
the other factors taking their defaults. -/
theorem missing_required_factor_raises (roads : List EdgeRow)
    (sid tid : Int) (solver : SolverCall → List Int) (d : RequestData)
    (hst : d.start.isSome) (hen : d.endp.isSome)
    (hmiss : d.sidewalks = none ∨ d.surface = none ∨ d.greenery = none) :
    (∃ k ∈ (["sidewalks", "surface", "greenery"] : List String),
        generate_route d roads sid tid solver = (.error (.keyError k), [])) ∧
    http_status (generate_route d roads sid tid solver).1 = 500 ∧
    (∀ (d2 : RequestData) (st2 en2 : ℚ × ℚ) (sw2 su2 gr2 : ℚ),
        d2.start = some st2 → d2.endp = some en2 →
        d2.sidewalks = some sw2 → d2.surface = some su2 →
        d2.greenery = some gr2 → ∃ p, parse_request d2 = .ok p) := by
  obtain ⟨st, hst2⟩ := Option.isSome_iff_exists.mp hst
  obtain ⟨en, hen2⟩ := Option.isSome_iff_exists.mp hen
  have herr : ∃ k ∈ (["sidewalks", "surface", "greenery"] : List String),
      parse_request d = .error (.keyError k) := by
    cases hsw : d.sidewalks with
    | none =>
        refine ⟨"sidewalks", by simp, ?_⟩
        simp only [parse_request, pyIndex, hst2, hen2, hsw]
        rfl
    | some sw =>
        cases hsu : d.surface with
        | none =>
            refine ⟨"surface", by simp, ?_⟩
            simp only [parse_request, pyIndex, hst2, hen2, hsw, hsu]
            rfl
        | some su =>
            cases hgr : d.greenery with
            | none =>
                refine ⟨"greenery", by simp, ?_⟩
                simp only [parse_request, pyIndex, hst2, hen2, hsw, hsu, hgr]
                rfl
            | some gr => simp [hsw, hsu, hgr] at hmiss
  obtain ⟨k, hk, hpe⟩ := herr
  have hg := generate_route_parse_error roads sid tid solver hpe
  refine ⟨⟨k, hk, hg⟩, by rw [hg]; rfl, ?_⟩
  intro d2 st2 en2 sw2 su2 gr2 h1 h2 h3 h4 h5
  exact ⟨_, parse_request_ok_of_required h1 h2 h3 h4 h5⟩

/-- Witness for the amended C5 at the concrete request `d5cx`. -/
theorem missing_required_factor_raises_witness :
    (∃ k ∈ (["sidewalks", "surface", "greenery"] : List String),
        generate_route d5cx [edgeA] 1 2 solver0 = (.error (.keyError k), [])) ∧
    http_status (generate_route d5cx [edgeA] 1 2 solver0).1 = 500 ∧
    (∀ (d2 : RequestData) (st2 en2 : ℚ × ℚ) (sw2 su2 gr2 : ℚ),
        d2.start = some st2 → d2.endp = some en2 →
        d2.sidewalks = some sw2 → d2.surface = some su2 →
        d2.greenery = some gr2 → ∃ p, parse_request d2 = .ok p) :=
  missing_required_factor_raises [edgeA] 1 2 solver0 d5cx
    rfl rfl (Or.inl rfl)

/-- C2 counterexample: the solver returns edge id 99 with no row in the
attribute table; the handler raises no error (there is no
MissingEdgeError), answers 200 with the partial output built from the
matching edge only, and edge 99 is silently dropped from the geometry
features and from the metrics input. -/
theorem missing_edge_counterexample :
    99 ∈ solver2cx ⟨lengthEdgeList [edgeA], 1, 2⟩ ∧
    (∀ r ∈ ([edgeA] : List EdgeRow), r.gid ≠ 99) ∧
    (generate_route dAll [edgeA] 1 2 solver2cx).1 =
      .ok { comfort_features := [⟨"comfort", edgeA⟩]
            shortest_features := [⟨"shortest", edgeA⟩]
            comfort_metrics := computeMetrics [edgeA]
            shortest_metrics := computeMetrics [edgeA] } ∧
    http_status (generate_route dAll [edgeA] 1 2 solver2cx).1 = 200 := by
  refine ⟨by simp [solver2cx], ?_, rfl, rfl⟩
  intro r hr
  rw [List.mem_singleton] at hr
  subst hr
  simp [edgeA]

/-- C2 amended: an edge id returned by the solver with no matching row in
the road-edge attribute table is silently omitted by the inner join from
the geometry features and by the `gid IN` filter from the metrics input,
and the handler raises no error for it; no MissingEdgeError exists. -/
theorem unmatched_edge_dropped (roads : List EdgeRow) (edgeIds : List Int)
    (rt : String) (eid : Int) (_hmem : eid ∈ edgeIds)
    (habs : eid ∉ roads.map (fun r => r.gid)) :
    (∀ f ∈ joinRoute roads edgeIds rt, f.row.gid ≠ eid) ∧
    (∀ r ∈ roads.filter (fun r => edgeIds.contains r.gid), r.gid ≠ eid) ∧
    (∀ (d : RequestData) (sid tid : Int) (solver : SolverCall → List Int)
        (p : Prefs), parse_request d = .ok p →
        ∃ resp, (generate_route d roads sid tid solver).1 = .ok resp) := by
  have hroads : ∀ r ∈ roads, r.gid ≠ eid := by
    intro r hr he
    exact habs (List.mem_map.mpr ⟨r, hr, he⟩)
  refine ⟨?_, ?_, ?_⟩
  · intro f hf
    simp only [joinRoute, List.mem_flatMap, List.mem_filterMap] at hf
    obtain ⟨r, hr, i, _, hif⟩ := hf
    by_cases hgid : r.gid = i
    · rw [if_pos hgid] at hif
      obtain rfl := Option.some.inj hif
      exact hroads r hr
    · rw [if_neg hgid] at hif
      exact absurd hif (by simp)
  · intro r hr
    exact hroads r (List.mem_of_mem_filter hr)
  · intro d sid tid solver p hp
    exact ⟨_, by rw [generate_route_ok roads sid tid solver hp]⟩

/-- Witness for the amended C2 at the concrete table `[edgeA]` and solver
output `[1, 99]`. -/
theorem unmatched_edge_dropped_witness :
    (∀ f ∈ joinRoute [edgeA] [1, 99] "comfort", f.row.gid ≠ 99) ∧
    (∀ r ∈ ([edgeA] : List EdgeRow).filter
        (fun r => ([1, 99] : List Int).contains r.gid), r.gid ≠ 99) ∧
    (∀ (d : RequestData) (sid tid : Int) (solver : SolverCall → List Int)
        (p : Prefs), parse_request d = .ok p →
        ∃ resp, (generate_route d [edgeA] sid tid solver).1 = .ok resp) :=
  unmatched_edge_dropped [edgeA] [1, 99] "comfort" 99
    (by simp) (by simp [edgeA])

/-- C3 counterexample: on a route with zero member edges the metrics
query reports the total length as SQL NULL (`none`), not 0 as claimed. -/
theorem empty_route_metrics_counterexample :
    (generate_route dAll [edgeA] 1 1 (fun _ => [])).1 =
      .ok ⟨[], [], emptyMetrics, emptyMetrics⟩ ∧
    emptyMetrics.total_length = none ∧
    emptyMetrics.total_length ≠ some 0 := by
  refine ⟨rfl, rfl, by simp [emptyMetrics]⟩

/-- C3 amended: a route with zero member edges (source node equals
target node, the solver returning no edge) yields a metrics row whose
total length is null (SQL `SUM` over zero rows), every comfort-attribute
mean null, and the aggregation raises no exception. -/
theorem empty_route_all_metrics_null (d : RequestData) (roads : List EdgeRow)
    (sid : Int) (p : Prefs) (h : parse_request d = .ok p) :
    ∃ resp, (generate_route d roads sid sid (fun _ => [])).1 = .ok resp ∧
      resp.comfort_metrics = emptyMetrics ∧
      resp.shortest_metrics = emptyMetrics ∧
      emptyMetrics.total_length = none ∧
      emptyMetrics.pedestrian_infrastructure_norm = none ∧
      emptyMetrics.pavement_norm = none ∧
      emptyMetrics.max_speed_norm = none ∧
      emptyMetrics.greenness_norm = none ∧
      emptyMetrics.buildings_norm = none ∧
      emptyMetrics.crossings_norm = none ∧
      emptyMetrics.facilities_norm = none ∧
      emptyMetrics.number_lanes_norm = none ∧
      emptyMetrics.water_norm = none ∧
      emptyMetrics.benches = none ∧
      emptyMetrics.light = none ∧
      emptyMetrics.visuals = none ∧
      emptyMetrics.gradient_norm = none :=
  ⟨⟨[], [], emptyMetrics, emptyMetrics⟩,
   generate_route_empty_solver roads sid sid h,
   rfl, rfl, rfl, rfl, rfl, rfl, rfl, rfl, rfl, rfl, rfl, rfl, rfl, rfl,
   rfl, rfl⟩

/-- Witness for the amended C3 at the concrete request `dAll`. -/
theorem empty_route_all_metrics_null_witness :
    ∃ resp, (generate_route dAll [edgeA] 1 1 (fun _ => [])).1 = .ok resp ∧
      resp.comfort_metrics = emptyMetrics ∧
      resp.shortest_metrics = emptyMetrics ∧
      emptyMetrics.total_length = none ∧
      emptyMetrics.pedestrian_infrastructure_norm = none ∧
      emptyMetrics.pavement_norm = none ∧
      emptyMetrics.max_speed_norm = none ∧
      emptyMetrics.greenness_norm = none ∧
      emptyMetrics.buildings_norm = none ∧
      emptyMetrics.crossings_norm = none ∧
      emptyMetrics.facilities_norm = none ∧
      emptyMetrics.number_lanes_norm = none ∧
      emptyMetrics.water_norm = none ∧
      emptyMetrics.benches = none ∧
      emptyMetrics.light = none ∧
      emptyMetrics.visuals = none ∧
      emptyMetrics.gradient_norm = none :=
  empty_route_all_metrics_null dAll [edgeA] 1 pAll parse_dAll

/-- C4 counterexample: with a solver reporting no path for both
variants, the handler raises nothing and answers HTTP 200 with empty
feature collections and null metrics; no NoRouteFoundError is surfaced
and no server-side failure is reported. -/
theorem no_route_found_counterexample :
    (generate_route dAll [edgeA] 1 2 (fun _ => [])).1 =
      .ok ⟨[], [], emptyMetrics, emptyMetrics⟩ ∧
    http_status (generate_route dAll [edgeA] 1 2 (fun _ => [])).1 = 200 ∧
    (200 : Nat) ≠ 500 :=
  ⟨rfl, rfl, by omega⟩

/-- C4 amended: once the preferences parse, the handler never surfaces
an error for any solver output; in particular when the solver reports no
path (empty edge set) for both variants the response is HTTP 200 with
empty feature collections and all-null metrics, with no NoRouteFoundError
and no failing variant identified. -/
theorem no_path_yields_ok_response (d : RequestData) (roads : List EdgeRow)
    (sid tid : Int) (p : Prefs) (h : parse_request d = .ok p) :
    (∀ solver : SolverCall → List Int,
        ∃ resp, (generate_route d roads sid tid solver).1 = .ok resp) ∧
    (generate_route d roads sid tid (fun _ => [])).1 =
      .ok ⟨[], [], emptyMetrics, emptyMetrics⟩ ∧
    http_status ((generate_route d roads sid tid (fun _ => [])).1) = 200 := by
  have he := generate_route_empty_solver (p := p) roads sid tid h
  refine ⟨?_, he, by rw [he]; rfl⟩
  intro solver
  exact ⟨_, by rw [generate_route_ok roads sid tid solver h]⟩

/-- Witness for the amended C4 at the concrete request `dAll`. -/
theorem no_path_yields_ok_response_witness :
    (∀ solver : SolverCall → List Int,
        ∃ resp, (generate_route dAll [edgeA] 1 2 solver).1 = .ok resp) ∧
    (generate_route dAll [edgeA] 1 2 (fun _ => [])).1 =
      .ok ⟨[], [], emptyMetrics, emptyMetrics⟩ ∧
    http_status ((generate_route dAll [edgeA] 1 2 (fun _ => [])).1) = 200 :=
  no_path_yields_ok_response dAll [edgeA] 1 2 pAll parse_dAll

/-- C6 counterexample: on a successful request the trace holds four
solver invocations, two with the comfort-adjusted costs (368 for the one
edge) and two with the pure distance costs (10), not one of each. -/
theorem four_solver_calls_counterexample :
    (generate_route dAll [edgeA] 1 2 solver0).2 =
      [⟨[⟨1, 10, 11, 368⟩], 1, 2⟩, ⟨[⟨1, 10, 11, 10⟩], 1, 2⟩,
       ⟨[⟨1, 10, 11, 368⟩], 1, 2⟩, ⟨[⟨1, 10, 11, 10⟩], 1, 2⟩] ∧
    ((generate_route dAll [edgeA] 1 2 solver0).2).length = 4 ∧
    (4 : Nat) ≠ 2 := by
  have h := congrArg Prod.snd
    (generate_route_ok (p := pAll) [edgeA] 1 2 solver0 parse_dAll)
  simp only at h
  rw [h]
  refine ⟨?_, rfl, by omega⟩
  norm_num [comfortEdgeList, comfortEdgeListMetric, lengthEdgeList,
    comfort_cost, comfort_cost_metric, distance_cost, coalesce0, edgeA,
    pAll, alphaTable]

/-- C6 amended: on every request whose preferences parse, the external
solver is invoked exactly twice with the comfort-adjusted costs and
exactly twice with the pure distance costs — once per cost model in the
geometry query and once per cost model in the metrics query — always
over the same source/target pair. -/
theorem solver_invoked_twice_per_model (d : RequestData)
    (roads : List EdgeRow) (sid tid : Int) (solver : SolverCall → List Int)
    (p : Prefs) (h : parse_request d = .ok p) :
    (generate_route d roads sid tid solver).2 =
      [⟨comfortEdgeList p.alpha p.weights roads, sid, tid⟩,
       ⟨lengthEdgeList roads, sid, tid⟩,
       ⟨comfortEdgeListMetric p.alpha p.weights roads, sid, tid⟩,
       ⟨lengthEdgeList roads, sid, tid⟩] := by
  rw [generate_route_ok roads sid tid solver h]

/-- Witness for the amended C6 at the concrete request `dAll`. -/
theorem solver_invoked_twice_per_model_witness :
    (generate_route dAll [edgeA] 1 2 solver0).2 =
      [⟨comfortEdgeList pAll.alpha pAll.weights [edgeA], 1, 2⟩,
       ⟨lengthEdgeList [edgeA], 1, 2⟩,
       ⟨comfortEdgeListMetric pAll.alpha pAll.weights [edgeA], 1, 2⟩,
       ⟨lengthEdgeList [edgeA], 1, 2⟩] :=
  solver_invoked_twice_per_model dAll [edgeA] 1 2 solver0 pAll parse_dAll

end ComfortRouting
